import Mathlib

/-!
Verification of the selection state machine in `src/select.rs` (crossbeam
multi-way synchronous selection).

The embedding translates the source into pure Lean functions:

* `Machine`, `State` mirror the Rust enums `Machine` and `State`.
* Machine integers (`usize`, `isize`, `u32`) become `Nat`/`Int`, with explicit
  `% 2^32` where the source uses wrapping `u32` arithmetic (`gen_random`).
* `Instant` becomes a `Nat` tick count; `Instant::now()` is an input (`TransEnv.now`).
* The per-thread parking handle (the `actor` module, not part of `src/`) is
  modelled from the spec as `Actor`.
* Channel endpoints are external collaborators; each offer carries an oracle
  (`SendEnv`/`RecvEnv`) describing the endpoint's answers, and the embedding
  records every endpoint/handoff interaction in a trace of `Op`s.
* The unbounded `loop` in `Machine::step` becomes fuel-indexed iteration of the
  loop body `Machine.stepIter`; `Machine.step fuel … = none` means the loop did
  not return within `fuel` iterations.
-/

/-- Wrapping-`u32` xorshift step of `gen_random` in `src/select.rs`:
`x ^= x << 13; x ^= x >> 17; x ^= x << 5` on a `Wrapping<u32>`. -/
def xorshift (x : Nat) : Nat :=
  let a := (x ^^^ (x <<< 13)) % 4294967296
  let b := a ^^^ (a >>> 17)
  (b ^^^ (b <<< 5)) % 4294967296

/-- `gen_random` from `src/select.rs`: advance the thread-local RNG cell
(initialised to `1` per thread) and reduce modulo `ceil` (with `ceil = 0`
mapped to `0`).  Returns `(new RNG state, drawn value)`. -/
def gen_random (rng : Nat) (ceil : Nat) : Nat × Nat :=
  let x := xorshift rng
  (x, match ceil with
      | 0 => 0
      | 1 => x % 1
      | 2 => x % 2
      | 3 => x % 3
      | 4 => x % 4
      | n => x % n)

/-- Modelled from the spec: the per-thread Parking Handle (the `actor` module is
not part of `src/`).  `sel` is the wake marker: `0` means unset, a non-zero
value is the id of the candidate that woke the thread. -/
structure Actor where
  sel : Nat
deriving DecidableEq

/-- Modelled from the spec: `reset()` clears the prior wake marker. -/
def Actor.reset (_a : Actor) : Actor := ⟨0⟩

/-- Modelled from the spec: `select(id)` marks this thread as woken by
candidate `id`; the handle records a single winner, so a later mark on an
already-marked handle is ignored. -/
def Actor.select (a : Actor) (id : Nat) : Actor := if a.sel = 0 then ⟨id⟩ else a

/-- Modelled from the spec: `selected()` reads which candidate woke the thread. -/
def Actor.selected (a : Actor) : Nat := a.sel

/-- Modelled from the spec: `wait_until(deadline)` blocks until woken or until
the deadline elapses.  `wake` is the id another thread wakes this one with
(`0` when the deadline elapses with no wake); a handle already marked keeps
its marker. -/
def Actor.wait_until (a : Actor) (wake : Nat) : Actor := if a.sel = 0 then ⟨wake⟩ else a

/-- Thread-local mutable context: the parking handle and the RNG cell. -/
structure Ctx where
  actor : Actor
  rng : Nat
deriving DecidableEq

/-- Per-transition external inputs: the current time (for the deadline check in
the `FinalTry` transition) and the wake id delivered while blocked. -/
structure TransEnv where
  now : Nat
  wake : Nat
deriving DecidableEq

/-- The three channel backend flavors (`Flavor` in the source). -/
inductive Flavor where
  | List
  | Array
  | Zero
deriving DecidableEq

/-- Outcome of one `try_send` attempt by the endpoint (`TrySendError`). -/
inductive SendResp where
  | ok
  | full
  | disconnected
deriving DecidableEq

/-- Outcome of one `try_recv` attempt by the endpoint (`TryRecvError`). -/
inductive RecvResp (α : Type) where
  | got (v : α)
  | empty
  | disconnected
deriving DecidableEq

/-- Result of `Select::send` / `State::send`: Rust `Result<(), T>`, whose
`Err` carries the value back to the caller. -/
inductive SendResult (α : Type) where
  | ok
  | err (v : α)
deriving DecidableEq

/-- Result of `Select::recv` / `State::recv`: Rust `Result<T, ()>`. -/
inductive RecvResult (α : Type) where
  | ok (v : α)
  | err
deriving DecidableEq

/-- One observable interaction with an endpoint or with the rendezvous handoff
slot, recorded so that theorems can state "the endpoint was not touched". -/
inductive Op where
  | try_send
  | try_recv
  | register
  | unregister
  | promise
  | unpromise
  | probe_disconnected
  | probe_can_send
  | probe_can_recv
  | put_request
  | take_request
deriving DecidableEq

/-- Oracle for one send offer: the endpoint's flavor and its answers.
`responses i` is the outcome of the `i`-th `try_send_with_backoff` attempt in
the `Try` spin loop, `ticks` the successive `backoff.tick()` answers (a finite
list: the backoff strategy bounds the spinning), `finalSend` the outcome of the
single `try_send` in `FinalTry`.  On a failed attempt the endpoint hands the
value back unchanged (`TrySendError::Full(v)` / `Disconnected(v)`). -/
structure SendEnv where
  flavor : Flavor
  responses : Nat → SendResp
  ticks : List Bool
  is_disconnected : Bool
  can_send : Bool
  finalSend : SendResp

/-- Oracle for one receive offer, symmetric to `SendEnv`; `reqVal` is the value
sitting in the rendezvous handoff slot for `take_request`. -/
structure RecvEnv (α : Type) where
  flavor : Flavor
  responses : Nat → RecvResp α
  ticks : List Bool
  is_disconnected : Bool
  can_recv : Bool
  finalRecv : RecvResp α
  reqVal : α

/-- Outcome of the bounded `Try` spin loop for a send, with the number of
`try_send` attempts made. -/
inductive SpinOut where
  | success (attempts : Nat)
  | closed (attempts : Nat)
  | exhausted (attempts : Nat)
deriving DecidableEq

/-- Outcome of the bounded `Try` spin loop for a receive. -/
inductive SpinRecvOut (α : Type) where
  | success (v : α) (attempts : Nat)
  | closed (attempts : Nat)
  | exhausted (attempts : Nat)
deriving DecidableEq

/-- The `Try` spin loop of `State::send`: attempt `try_send_with_backoff`; on
`Ok` return success, on `Disconnected` stop for this candidate this round, on
`Full` keep the value and spin again while `backoff.tick()` allows. -/
def trySpinSend (responses : Nat → SendResp) : Nat → List Bool → SpinOut
  | i, ticks =>
    match responses i with
    | .ok => .success (i + 1)
    | .disconnected => .closed (i + 1)
    | .full =>
      match ticks with
      | [] => .exhausted (i + 1)
      | t :: rest => if t then trySpinSend responses (i + 1) rest else .exhausted (i + 1)

/-- The `Try` spin loop of `State::recv`, symmetric to `trySpinSend`. -/
def trySpinRecv {α : Type} (responses : Nat → RecvResp α) : Nat → List Bool → SpinRecvOut α
  | i, ticks =>
    match responses i with
    | .got v => .success v (i + 1)
    | .disconnected => .closed (i + 1)
    | .empty =>
      match ticks with
      | [] => .exhausted (i + 1)
      | t :: rest => if t then trySpinRecv responses (i + 1) rest else .exhausted (i + 1)

/-- The protocol state (`enum State` in the source). -/
inductive State where
  | Try (closed_count : Nat)
  | Subscribe (closed_countdown : Int)
  | Unsubscribe
  | FinalTry (id : Nat)
  | TimedOut
  | Disconnected
deriving DecidableEq

/-- The selection machine (`enum Machine` in the source): the `Counting` shape
before the candidate set size is known, and the `Initialized` shape after. -/
inductive Machine where
  | Counting (len : Nat) (id_first : Nat) (deadline : Option Nat)
  | Initialized (pos : Nat) (state : State) (len : Nat) (start : Nat)
      (deadline : Option Nat)
deriving DecidableEq

/-- Result of one `State::send` / `State::recv` call: the updated protocol
state, the updated parking handle, the returned result, and the trace of
endpoint/handoff interactions. -/
structure StateOut (ρ : Type) where
  state : State
  actor : Actor
  res : ρ
  ops : List Op
deriving DecidableEq

/-- `State::transition` from the source: the once-per-round edge of the
protocol state machine.  Returns the new state and the updated parking
handle. -/
def State.transition (s : State) (len : Nat) (deadline : Option Nat) (a : Actor)
    (env : TransEnv) : State × Actor :=
  match s with
  | .Try closed_count =>
    if closed_count < len then
      (.Subscribe (closed_count : Int), a.reset)
    else
      (.Disconnected, a)
  | .Subscribe closed_countdown =>
    let a1 := if closed_countdown < 0 then a.select 1 else a
    (.Unsubscribe, a1.wait_until env.wake)
  | .Unsubscribe => (.FinalTry a.selected, a)
  | .FinalTry _ =>
    match deadline with
    | some dl => if dl ≤ env.now then (.TimedOut, a) else (.Try 0, a)
    | none => (.Try 0, a)
  | .TimedOut => (.TimedOut, a)
  | .Disconnected => (.Disconnected, a)

/-- `State::send` from the source: the per-state behavior of one live send
offer. -/
def State.send {α : Type} (s : State) (a : Actor) (tx : SendEnv) (txid : Nat)
    (v : α) : StateOut (SendResult α) :=
  match s with
  | .Try closed_count =>
    match trySpinSend tx.responses 0 tx.ticks with
    | .success n => ⟨.Try closed_count, a, .ok, List.replicate n .try_send⟩
    | .closed n => ⟨.Try (closed_count + 1), a, .err v, List.replicate n .try_send⟩
    | .exhausted n => ⟨.Try closed_count, a, .err v, List.replicate n .try_send⟩
  | .Subscribe closed_countdown =>
    let regs : List Op :=
      match tx.flavor with
      | .List => []
      | .Array => [.register]
      | .Zero => [.promise]
    let cc := if tx.is_disconnected then closed_countdown - 1 else closed_countdown
    let a1 := if tx.can_send then a.select 1 else a
    ⟨.Subscribe cc, a1, .err v, regs ++ [.probe_disconnected, .probe_can_send]⟩
  | .Unsubscribe =>
    let regs : List Op :=
      match tx.flavor with
      | .List => []
      | .Array => [.unregister]
      | .Zero => [.unpromise]
    ⟨.Unsubscribe, a, .err v, regs⟩
  | .FinalTry id =>
    if txid = id then
      match tx.flavor with
      | .Array | .List =>
        match tx.finalSend with
        | .ok => ⟨.FinalTry id, a, .ok, [.try_send]⟩
        | .full => ⟨.FinalTry id, a, .err v, [.try_send]⟩
        | .disconnected => ⟨.FinalTry id, a, .err v, [.try_send]⟩
      | .Zero => ⟨.FinalTry id, a, .ok, [.put_request]⟩
    else ⟨.FinalTry id, a, .err v, []⟩
  | .TimedOut => ⟨.TimedOut, a, .err v, []⟩
  | .Disconnected => ⟨.Disconnected, a, .err v, []⟩

/-- `State::recv` from the source: the per-state behavior of one live receive
offer. -/
def State.recv {α : Type} (s : State) (a : Actor) (rx : RecvEnv α) (rxid : Nat) :
    StateOut (RecvResult α) :=
  match s with
  | .Try closed_count =>
    match trySpinRecv rx.responses 0 rx.ticks with
    | .success v n => ⟨.Try closed_count, a, .ok v, List.replicate n .try_recv⟩
    | .closed n => ⟨.Try (closed_count + 1), a, .err, List.replicate n .try_recv⟩
    | .exhausted n => ⟨.Try closed_count, a, .err, List.replicate n .try_recv⟩
  | .Subscribe closed_countdown =>
    let regs : List Op :=
      match rx.flavor with
      | .List => [.register]
      | .Array => [.register]
      | .Zero => [.promise]
    let cc := if rx.is_disconnected then closed_countdown - 1 else closed_countdown
    let a1 := if rx.can_recv then a.select 1 else a
    ⟨.Subscribe cc, a1, .err, regs ++ [.probe_disconnected, .probe_can_recv]⟩
  | .Unsubscribe =>
    let regs : List Op :=
      match rx.flavor with
      | .List => [.unregister]
      | .Array => [.unregister]
      | .Zero => [.unpromise]
    ⟨.Unsubscribe, a, .err, regs⟩
  | .FinalTry id =>
    if rxid = id then
      match rx.flavor with
      | .Array | .List =>
        match rx.finalRecv with
        | .got v => ⟨.FinalTry id, a, .ok v, [.try_recv]⟩
        | .empty => ⟨.FinalTry id, a, .err, [.try_recv]⟩
        | .disconnected => ⟨.FinalTry id, a, .err, [.try_recv]⟩
      | .Zero => ⟨.FinalTry id, a, .ok rx.reqVal, [.take_request]⟩
    else ⟨.FinalTry id, a, .err, []⟩
  | .TimedOut => ⟨.TimedOut, a, .err, []⟩
  | .Disconnected => ⟨.Disconnected, a, .err, []⟩

/-- One iteration of the `loop` in `Machine::step`: either the loop continues
(`cont`, after the Counting-to-Initialized transition or a round-boundary
state transition) or the call returns (`ret`), with `live = true` exactly when
the Rust function returns `Some(&mut state)`. -/
inductive StepRes where
  | cont (m : Machine) (ctx : Ctx)
  | ret (m : Machine) (ctx : Ctx) (live : Bool)
deriving DecidableEq

/-- The body of the `loop` in `Machine::step` from the source. -/
def Machine.stepIter (m : Machine) (ctx : Ctx) (id : Nat) (env : TransEnv) : StepRes :=
  match m with
  | .Counting len id_first deadline =>
    if id_first = id then
      let r := gen_random ctx.rng len
      .cont (.Initialized 0 (.Try 0) len r.2 deadline) { ctx with rng := r.1 }
    else
      .ret (.Counting (len + 1) (if id_first = 0 then id else id_first) deadline) ctx false
  | .Initialized pos s len start deadline =>
    if 2 * len ≤ pos then
      let t := s.transition len deadline ctx.actor env
      .cont (.Initialized 0 t.1 len start deadline) { ctx with actor := t.2 }
    else
      .ret (.Initialized (pos + 1) s len start deadline) ctx
        (decide (start ≤ pos ∧ pos < start + len))

/-- `Machine::step`, as fuel-indexed iteration of `Machine.stepIter`; `none`
means the loop did not return within `fuel` iterations (at most one extra
iteration is ever needed in reachable configurations, see the termination
theorems). -/
def Machine.step : Nat → Machine → Ctx → Nat → TransEnv → Option (Machine × Ctx × Bool)
  | 0, _, _, _, _ => none
  | fuel + 1, m, ctx, id, env =>
    match m.stepIter ctx id env with
    | .ret m1 c1 live => some (m1, c1, live)
    | .cont m1 c1 => Machine.step fuel m1 c1 id env

/-- The deadline stored in either machine shape. -/
def Machine.deadline : Machine → Option Nat
  | .Counting _ _ d => d
  | .Initialized _ _ _ _ d => d

/-- `Select::with_deadline` from the source: a fresh machine in the Counting
shape with `len = 0` and `id_first = 0`. -/
def Select.with_deadline (deadline : Option Nat) : Machine :=
  .Counting 0 0 deadline

/-- `Select::new` from the source: no deadline. -/
def Select.new : Machine := Select.with_deadline none

/-- `Select::with_timeout` from the source: deadline = now + duration. -/
def Select.with_timeout (now dur : Nat) : Machine :=
  Select.with_deadline (some (now + dur))

/-- `Select::timed_out` from the source. -/
def Select.timed_out (m : Machine) : Bool :=
  match m with
  | .Initialized _ .TimedOut _ _ _ => true
  | _ => false

/-- `Select::disconnected` from the source. -/
def Select.disconnected (m : Machine) : Bool :=
  match m with
  | .Initialized _ .Disconnected _ _ _ => true
  | _ => false

/-- Result of one full `Select::send` / `Select::recv` call. -/
structure CallOut (ρ : Type) where
  m : Machine
  ctx : Ctx
  res : ρ
  ops : List Op
deriving DecidableEq

/-- `Select::send` from the source: step the machine with the endpoint's id;
on a live position run `State::send`, otherwise return `Err(value)` without
touching the endpoint. -/
def Select.send {α : Type} (fuel : Nat) (m : Machine) (ctx : Ctx) (env : TransEnv)
    (tx : SendEnv) (txid : Nat) (v : α) : Option (CallOut (SendResult α)) :=
  match Machine.step fuel m ctx txid env with
  | none => none
  | some (m1, c1, live) =>
    if live then
      match m1 with
      | .Initialized pos s len start deadline =>
        let r := s.send c1.actor tx txid v
        some ⟨.Initialized pos r.state len start deadline,
          { c1 with actor := r.actor }, r.res, r.ops⟩
      | m2 => some ⟨m2, c1, .err v, []⟩
    else
      some ⟨m1, c1, .err v, []⟩

/-- `Select::recv` from the source. -/
def Select.recv {α : Type} (fuel : Nat) (m : Machine) (ctx : Ctx) (env : TransEnv)
    (rx : RecvEnv α) (rxid : Nat) : Option (CallOut (RecvResult α)) :=
  match Machine.step fuel m ctx rxid env with
  | none => none
  | some (m1, c1, live) =>
    if live then
      match m1 with
      | .Initialized pos s len start deadline =>
        let r := s.recv c1.actor rx rxid
        some ⟨.Initialized pos r.state len start deadline,
          { c1 with actor := r.actor }, r.res, r.ops⟩
      | m2 => some ⟨m2, c1, .err, []⟩
    else
      some ⟨m1, c1, .err, []⟩

/-- One offer in the caller's loop: a send or a receive candidate, together
with the external inputs of that call. -/
inductive Offer (α : Type) where
  | send (tx : SendEnv) (txid : Nat) (env : TransEnv) (v : α)
  | recv (rx : RecvEnv α) (rxid : Nat) (env : TransEnv)

/-- The endpoint id carried by an offer. -/
def Offer.oid {α : Type} : Offer α → Nat
  | .send _ txid _ _ => txid
  | .recv _ rxid _ => rxid

/-- Run one offer against the machine, recording whether it succeeded and the
trace of endpoint interactions. -/
def runOffer1 {α : Type} (fuel : Nat) (m : Machine) (ctx : Ctx) :
    Offer α → Option (Machine × Ctx × Bool × List Op)
  | .send tx txid env v =>
    match Select.send fuel m ctx env tx txid v with
    | none => none
    | some r => some (r.m, r.ctx, (match r.res with | .ok => true | .err _ => false), r.ops)
  | .recv rx rxid env =>
    match Select.recv fuel m ctx env rx rxid with
    | none => none
    | some r => some (r.m, r.ctx, (match r.res with | .ok _ => true | .err => false), r.ops)

/-- Run a sequence of offers, threading the machine and the thread context,
collecting for each offer whether it succeeded and its endpoint trace. -/
def runOffers {α : Type} (fuel : Nat) :
    Machine → Ctx → List (Offer α) → Option (Machine × Ctx × List (Bool × List Op))
  | m, ctx, [] => some (m, ctx, [])
  | m, ctx, o :: os =>
    match runOffer1 fuel m ctx o with
    | none => none
    | some (m1, c1, suc, tr) =>
      match runOffers fuel m1 c1 os with
      | none => none
      | some (m2, c2, rs) => some (m2, c2, (suc, tr) :: rs)

/-- Number of live positions among the pre-increment positions
`j, j+1, …, j+k-1`: those `p` with `start ≤ p < start + len`. -/
def liveCnt (start len : Nat) : Nat → Nat → Nat
  | _, 0 => 0
  | j, k + 1 => (if start ≤ j ∧ j < start + len then 1 else 0) + liveCnt start len (j + 1) k

/-- Machines on which `Machine::step` terminates: a Counting machine whose
`id_first`, once set, implies at least one candidate was counted, and an
Initialized machine with at least one candidate. -/
def goodM : Machine → Bool
  | .Counting len id_first _ => id_first == 0 || decide (1 ≤ len)
  | .Initialized _ _ len _ _ => decide (1 ≤ len)

/-- Concrete sample endpoint oracle (an unbounded-list endpoint that always
reports `Full` and is never ready), used to instantiate witnesses. -/
def sampleSendEnv : SendEnv := ⟨.List, fun _ => .full, [], false, false, .full⟩

/-- Concrete sample receive oracle (a rendezvous endpoint that always reports
`Empty`), used to instantiate witnesses. -/
def sampleRecvEnv : RecvEnv Nat := ⟨.Zero, fun _ => .empty, [], false, false, .empty, 7⟩

/-- Concrete sample offer with a given endpoint id. -/
def sampleOffer (id : Nat) : Offer Nat := .send sampleSendEnv id ⟨0, 0⟩ 5

/-- Concrete sample thread context: unmarked parking handle, RNG cell at its
initial per-thread value `1`. -/
def sampleCtx : Ctx := ⟨⟨0⟩, 1⟩

/-- Concrete sample transition environment. -/
def sampleEnv : TransEnv := ⟨0, 0⟩

/-! ### Helper lemmas -/

theorem step_succ_lt {fuel pos len start : Nat} {s : State} {d : Option Nat}
    {ctx : Ctx} {id : Nat} {env : TransEnv} (h : pos < 2 * len) :
    Machine.step (fuel + 1) (.Initialized pos s len start d) ctx id env =
      some (.Initialized (pos + 1) s len start d, ctx,
        decide (start ≤ pos ∧ pos < start + len)) := by
  simp [Machine.step, Machine.stepIter, not_le.mpr h]

theorem select_send_dormant {α : Type} {fuel pos len start : Nat} {s : State}
    {d : Option Nat} {ctx : Ctx} {env : TransEnv} {tx : SendEnv} {txid : Nat} {v : α}
    (h : pos < 2 * len) (hlive : ¬(start ≤ pos ∧ pos < start + len)) :
    Select.send (fuel + 1) (.Initialized pos s len start d) ctx env tx txid v =
      some ⟨.Initialized (pos + 1) s len start d, ctx, .err v, []⟩ := by
  simp [Select.send, step_succ_lt h, hlive]

theorem select_send_live {α : Type} {fuel pos len start : Nat} {s : State}
    {d : Option Nat} {ctx : Ctx} {env : TransEnv} {tx : SendEnv} {txid : Nat} {v : α}
    (h : pos < 2 * len) (h1 : start ≤ pos) (h2 : pos < start + len) :
    Select.send (fuel + 1) (.Initialized pos s len start d) ctx env tx txid v =
      some ⟨.Initialized (pos + 1) (State.send s ctx.actor tx txid v).state len start d,
        { ctx with actor := (State.send s ctx.actor tx txid v).actor },
        (State.send s ctx.actor tx txid v).res,
        (State.send s ctx.actor tx txid v).ops⟩ := by
  simp [Select.send, step_succ_lt h, h1, h2]

theorem select_recv_dormant {α : Type} {fuel pos len start : Nat} {s : State}
    {d : Option Nat} {ctx : Ctx} {env : TransEnv} {rx : RecvEnv α} {rxid : Nat}
    (h : pos < 2 * len) (hlive : ¬(start ≤ pos ∧ pos < start + len)) :
    Select.recv (fuel + 1) (.Initialized pos s len start d) ctx env rx rxid =
      some ⟨.Initialized (pos + 1) s len start d, ctx, .err, []⟩ := by
  simp [Select.recv, step_succ_lt h, hlive]

theorem select_recv_live {α : Type} {fuel pos len start : Nat} {s : State}
    {d : Option Nat} {ctx : Ctx} {env : TransEnv} {rx : RecvEnv α} {rxid : Nat}
    (h : pos < 2 * len) (h1 : start ≤ pos) (h2 : pos < start + len) :
    Select.recv (fuel + 1) (.Initialized pos s len start d) ctx env rx rxid =
      some ⟨.Initialized (pos + 1) (State.recv s ctx.actor rx rxid).state len start d,
        { ctx with actor := (State.recv s ctx.actor rx rxid).actor },
        (State.recv s ctx.actor rx rxid).res,
        (State.recv s ctx.actor rx rxid).ops⟩ := by
  simp [Select.recv, step_succ_lt h, h1, h2]

theorem runOffer1_counting {α : Type} {fuel k f0 : Nat} {d : Option Nat} {ctx : Ctx}
    {o : Offer α} (h : Offer.oid o ≠ f0) :
    runOffer1 (fuel + 1) (.Counting k f0 d) ctx o =
      some (.Counting (k + 1) (if f0 = 0 then Offer.oid o else f0) d, ctx, false, []) := by
  cases o with
  | send tx txid env v =>
    simp only [Offer.oid] at h
    simp [runOffer1, Select.send, Machine.step, Machine.stepIter, Offer.oid, Ne.symm h]
  | recv rx rxid env =>
    simp only [Offer.oid] at h
    simp [runOffer1, Select.recv, Machine.step, Machine.stepIter, Offer.oid, Ne.symm h]

theorem counting_run {α : Type} (os : List (Offer α)) :
    ∀ (k f0 : Nat) (d : Option Nat) (ctx : Ctx) (fuel : Nat), f0 ≠ 0 →
    (∀ o ∈ os, Offer.oid o ≠ f0) →
    runOffers (fuel + 1) (.Counting k f0 d) ctx os =
      some (.Counting (k + os.length) f0 d, ctx, os.map fun _ => (false, ([] : List Op))) := by
  induction os with
  | nil => intro k f0 d ctx fuel _ _; simp [runOffers]
  | cons o os ih =>
    intro k f0 d ctx fuel hf0 hos
    have ho : Offer.oid o ≠ f0 := hos o (by simp)
    have hrest : ∀ o2 ∈ os, Offer.oid o2 ≠ f0 := fun o2 h2 => hos o2 (by simp [h2])
    simp only [runOffers, runOffer1_counting ho, if_neg hf0,
      ih (k + 1) f0 d ctx fuel hf0 hrest]
    simp only [List.length_cons, List.map_cons]
    have : k + 1 + os.length = k + (os.length + 1) := by omega
    rw [this]

theorem liveCnt_closed_form (start len : Nat) :
    ∀ (k j : Nat), liveCnt start len j k = min (j + k) (start + len) - max j start := by
  intro k
  induction k with
  | zero => intro j; simp only [liveCnt]; omega
  | succ k ih =>
    intro j
    rw [liveCnt, ih (j + 1)]
    split
    · omega
    · omega

theorem liveCnt_round (start len : Nat) (h : start ≤ len) :
    liveCnt start len 0 (2 * len) = len := by
  rw [liveCnt_closed_form]
  omega

theorem send_try_state {α : Type} (c : Nat) (a : Actor) (tx : SendEnv) (txid : Nat)
    (v : α) : ∃ c2, (State.send (.Try c) a tx txid v).state = .Try c2 ∧ c2 ≤ c + 1 ∧
      (State.send (.Try c) a tx txid v).actor = a := by
  simp only [State.send]
  rcases trySpinSend tx.responses 0 tx.ticks with n | n | n
  · exact ⟨c, rfl, by omega, rfl⟩
  · exact ⟨c + 1, rfl, by omega, rfl⟩
  · exact ⟨c, rfl, by omega, rfl⟩

theorem recv_try_state {α : Type} (c : Nat) (a : Actor) (rx : RecvEnv α) (rxid : Nat) :
    ∃ c2, (State.recv (.Try c) a rx rxid).state = .Try c2 ∧ c2 ≤ c + 1 ∧
      (State.recv (.Try c) a rx rxid).actor = a := by
  simp only [State.recv]
  rcases trySpinRecv rx.responses 0 rx.ticks with ⟨v, n⟩ | n | n
  · exact ⟨c, rfl, by omega, rfl⟩
  · exact ⟨c + 1, rfl, by omega, rfl⟩
  · exact ⟨c, rfl, by omega, rfl⟩

theorem runOffer1_try {α : Type} {fuel j c len start : Nat} {d : Option Nat}
    {ctx : Ctx} (o : Offer α) (h : j < 2 * len) :
    ∃ c2 suc tr, runOffer1 (fuel + 1) (.Initialized j (.Try c) len start d) ctx o =
      some (.Initialized (j + 1) (.Try c2) len start d, ctx, suc, tr) ∧
      c2 ≤ c + (if start ≤ j ∧ j < start + len then 1 else 0) := by
  by_cases hlive : start ≤ j ∧ j < start + len
  · rw [if_pos hlive]
    cases o with
    | send tx txid env v =>
      obtain ⟨c2, hst, hle, hac⟩ := send_try_state c ctx.actor tx txid v
      refine ⟨c2,
        (match (State.send (.Try c) ctx.actor tx txid v).res with
          | .ok => true | .err _ => false),
        (State.send (.Try c) ctx.actor tx txid v).ops, ?_, by omega⟩
      simp only [runOffer1, select_send_live h hlive.1 hlive.2, hst, hac]
    | recv rx rxid env =>
      obtain ⟨c2, hst, hle, hac⟩ := recv_try_state c ctx.actor rx rxid
      refine ⟨c2,
        (match (State.recv (.Try c) ctx.actor rx rxid).res with
          | .ok _ => true | .err => false),
        (State.recv (.Try c) ctx.actor rx rxid).ops, ?_, by omega⟩
      simp only [runOffer1, select_recv_live h hlive.1 hlive.2, hst, hac]
  · rw [if_neg hlive]
    cases o with
    | send tx txid env v =>
      exact ⟨c, false, [], by simp only [runOffer1, select_send_dormant h hlive], by omega⟩
    | recv rx rxid env =>
      exact ⟨c, false, [], by simp only [runOffer1, select_recv_dormant h hlive], by omega⟩

theorem try_round_inv {α : Type} (os : List (Offer α)) :
    ∀ (j c len start : Nat) (d : Option Nat) (ctx : Ctx) (fuel : Nat),
    j + os.length ≤ 2 * len →
    ∃ c2 rs, runOffers (fuel + 1) (.Initialized j (.Try c) len start d) ctx os =
      some (.Initialized (j + os.length) (.Try c2) len start d, ctx, rs) ∧
      c2 ≤ c + liveCnt start len j os.length := by
  induction os with
  | nil =>
    intro j c len start d ctx fuel _
    exact ⟨c, [], by simp [runOffers], by simp [liveCnt]⟩
  | cons o os ih =>
    intro j c len start d ctx fuel hlen
    have hj : j < 2 * len := by
      have := os.length
      simp only [List.length_cons] at hlen
      omega
    obtain ⟨c1, suc, tr, h1, hc1⟩ := @runOffer1_try α fuel j c len start d ctx o hj
    obtain ⟨c2, rs, h2, hc2⟩ := ih (j + 1) c1 len start d ctx fuel
      (by simp only [List.length_cons] at hlen; omega)
    refine ⟨c2, (suc, tr) :: rs, ?_, ?_⟩
    · simp only [runOffers, h1, h2, List.length_cons]
      have : j + 1 + os.length = j + (os.length + 1) := by omega
      rw [this]
    · simp only [List.length_cons, liveCnt]
      omega

/-! ### Claims -/

/-- Claim C1: for every N ≥ 1, offering N candidates with pairwise-distinct
non-zero endpoint ids to a fresh machine makes every one of those N offers
return failure without touching any endpoint (empty interaction trace), with
the machine counting up to N in the Counting shape; and on the repeated offer
of the first id the loop body transitions the machine from the Counting shape
to the Initialized shape with `candidate_count = N`, `position = 0` and
`protocol_state = Try{closed_count := 0}`. -/
theorem claim_c1 {α : Type} (o0 : Offer α) (os : List (Offer α)) (d : Option Nat)
    (ctx : Ctx) (fuel : Nat) (env : TransEnv)
    (hnodup : ((o0 :: os).map Offer.oid).Nodup)
    (hnz : ∀ o ∈ o0 :: os, Offer.oid o ≠ 0) :
    runOffers (fuel + 1) (Select.with_deadline d) ctx (o0 :: os) =
      some (.Counting (o0 :: os).length (Offer.oid o0) d, ctx,
        (o0 :: os).map fun _ => (false, ([] : List Op))) ∧
    Machine.stepIter (.Counting (o0 :: os).length (Offer.oid o0) d) ctx
        (Offer.oid o0) env =
      .cont (.Initialized 0 (.Try 0) (o0 :: os).length
          (gen_random ctx.rng (o0 :: os).length).2 d)
        { ctx with rng := (gen_random ctx.rng (o0 :: os).length).1 } := by
  have h0 : Offer.oid o0 ≠ 0 := hnz o0 (by simp)
  have hrest : ∀ o ∈ os, Offer.oid o ≠ Offer.oid o0 := by
    intro o ho heq
    simp only [List.map_cons, List.nodup_cons] at hnodup
    exact hnodup.1 (heq ▸ List.mem_map_of_mem Offer.oid ho)
  constructor
  · have h1 : runOffer1 (fuel + 1) (Machine.Counting 0 0 d) ctx o0 =
        some (.Counting 1 (Offer.oid o0) d, ctx, false, []) := by
      rw [runOffer1_counting h0]
      norm_num
    have h2 := counting_run os 1 (Offer.oid o0) d ctx fuel h0 hrest
    simp only [Select.with_deadline, runOffers, h1, h2, List.map_cons, List.length_cons]
    rw [show 1 + os.length = os.length + 1 by omega]
  · simp [Machine.stepIter]

/-- Witness for C1 at N = 2 with ids 1 and 2. -/
theorem claim_c1_witness :
    runOffers 1 (Select.with_deadline none) sampleCtx [sampleOffer 1, sampleOffer 2] =
      some (.Counting 2 1 none, sampleCtx, [(false, []), (false, [])]) ∧
    Machine.stepIter (.Counting 2 1 none) sampleCtx 1 sampleEnv =
      .cont (.Initialized 0 (.Try 0) 2 1 none) ⟨⟨0⟩, 270369⟩ :=
  claim_c1 (sampleOffer 1) [sampleOffer 2] none sampleCtx 0 sampleEnv
    (by decide) (by decide)

/-- Claim C2: for an Initialized machine with `candidate_count = len ≥ 1` and
`random_start = start < len`, each round of `2*len` offers has exactly `len`
live pre-increment positions `p` (those with `start ≤ p < start + len`); a
dormant offer returns failure without touching the endpoint and leaves the
protocol state unchanged, while a live offer invokes the current protocol
state's send/recv logic (`State.send` / `State.recv`). -/
theorem claim_c2 :
    (∀ len start : Nat, 1 ≤ len → start < len → liveCnt start len 0 (2 * len) = len) ∧
    (∀ (α : Type) (fuel pos len start : Nat) (s : State) (d : Option Nat) (ctx : Ctx)
      (env : TransEnv) (tx : SendEnv) (txid : Nat) (v : α),
      pos < 2 * len → ¬(start ≤ pos ∧ pos < start + len) →
      Select.send (fuel + 1) (.Initialized pos s len start d) ctx env tx txid v =
        some ⟨.Initialized (pos + 1) s len start d, ctx, .err v, []⟩) ∧
    (∀ (α : Type) (fuel pos len start : Nat) (s : State) (d : Option Nat) (ctx : Ctx)
      (env : TransEnv) (rx : RecvEnv α) (rxid : Nat),
      pos < 2 * len → ¬(start ≤ pos ∧ pos < start + len) →
      Select.recv (fuel + 1) (.Initialized pos s len start d) ctx env rx rxid =
        some ⟨.Initialized (pos + 1) s len start d, ctx, .err, []⟩) ∧
    (∀ (α : Type) (fuel pos len start : Nat) (s : State) (d : Option Nat) (ctx : Ctx)
      (env : TransEnv) (tx : SendEnv) (txid : Nat) (v : α),
      pos < 2 * len → start ≤ pos → pos < start + len →
      Select.send (fuel + 1) (.Initialized pos s len start d) ctx env tx txid v =
        some ⟨.Initialized (pos + 1) (State.send s ctx.actor tx txid v).state len start d,
          { ctx with actor := (State.send s ctx.actor tx txid v).actor },
          (State.send s ctx.actor tx txid v).res,
          (State.send s ctx.actor tx txid v).ops⟩) ∧
    (∀ (α : Type) (fuel pos len start : Nat) (s : State) (d : Option Nat) (ctx : Ctx)
      (env : TransEnv) (rx : RecvEnv α) (rxid : Nat),
      pos < 2 * len → start ≤ pos → pos < start + len →
      Select.recv (fuel + 1) (.Initialized pos s len start d) ctx env rx rxid =
        some ⟨.Initialized (pos + 1) (State.recv s ctx.actor rx rxid).state len start d,
          { ctx with actor := (State.recv s ctx.actor rx rxid).actor },
          (State.recv s ctx.actor rx rxid).res,
          (State.recv s ctx.actor rx rxid).ops⟩) :=
  ⟨fun len start _ h2 => liveCnt_round start len (le_of_lt h2),
   fun _ _ _ _ _ _ _ _ _ _ _ _ h hlive => select_send_dormant h hlive,
   fun _ _ _ _ _ _ _ _ _ _ _ h hlive => select_recv_dormant h hlive,
   fun _ _ _ _ _ _ _ _ _ _ _ _ h h1 h2 => select_send_live h h1 h2,
   fun _ _ _ _ _ _ _ _ _ _ _ h h1 h2 => select_recv_live h h1 h2⟩

/-- Witness for C2 at `len = 2`, `start = 1`: the round has 2 live positions;
position 0 is dormant (failure, empty trace), position 1 is live (the `Try`
logic runs one `try_send` attempt). -/
theorem claim_c2_witness :
    liveCnt 1 2 0 4 = 2 ∧
    Select.send 1 (.Initialized 0 (.Try 0) 2 1 none) sampleCtx sampleEnv
        sampleSendEnv 9 (5 : Nat) =
      some ⟨.Initialized 1 (.Try 0) 2 1 none, sampleCtx, .err 5, []⟩ ∧
    Select.recv 1 (.Initialized 0 (.Try 0) 2 1 none) sampleCtx sampleEnv
        sampleRecvEnv 9 =
      some ⟨.Initialized 1 (.Try 0) 2 1 none, sampleCtx, .err, []⟩ ∧
    Select.send 1 (.Initialized 1 (.Try 0) 2 1 none) sampleCtx sampleEnv
        sampleSendEnv 9 (5 : Nat) =
      some ⟨.Initialized 2 (.Try 0) 2 1 none, sampleCtx, .err 5, [.try_send]⟩ ∧
    Select.recv 1 (.Initialized 1 (.Try 0) 2 1 none) sampleCtx sampleEnv
        sampleRecvEnv 9 =
      some ⟨.Initialized 2 (.Try 0) 2 1 none, sampleCtx, .err, [.try_recv]⟩ :=
  ⟨claim_c2.1 2 1 (by decide) (by decide),
   claim_c2.2.1 Nat 0 0 2 1 (.Try 0) none sampleCtx sampleEnv sampleSendEnv 9 5
     (by decide) (by decide),
   claim_c2.2.2.1 Nat 0 0 2 1 (.Try 0) none sampleCtx sampleEnv sampleRecvEnv 9
     (by decide) (by decide),
   claim_c2.2.2.2.1 Nat 0 1 2 1 (.Try 0) none sampleCtx sampleEnv sampleSendEnv 9 5
     (by decide) (by decide) (by decide),
   claim_c2.2.2.2.2 Nat 0 1 2 1 (.Try 0) none sampleCtx sampleEnv sampleRecvEnv 9
     (by decide) (by decide) (by decide)⟩

/-- Claim C3: at a round boundary in state `Try{closed_count}`, if
`closed_count < candidate_count` the state becomes
`Subscribe{closed_countdown := closed_count}` and the parking handle is reset
(wake marker cleared); if `closed_count = candidate_count` the state becomes
`Disconnected`; and these two cases cover every reachable round boundary:
starting a round in `Try{0}`, after the full round of `2*len` offers the
closed count never exceeds `len` (each live position increments it at most
once). -/
theorem claim_c3 :
    (∀ (c len : Nat) (d : Option Nat) (a : Actor) (env : TransEnv), c < len →
      State.transition (.Try c) len d a env = (.Subscribe (c : Int), a.reset) ∧
        (a.reset).sel = 0) ∧
    (∀ (c len : Nat) (d : Option Nat) (a : Actor) (env : TransEnv), c = len →
      State.transition (.Try c) len d a env = (.Disconnected, a)) ∧
    (∀ (α : Type) (os : List (Offer α)) (len start : Nat) (d : Option Nat) (ctx : Ctx)
      (fuel : Nat), os.length = 2 * len → start ≤ len →
      ∃ c2 rs, runOffers (fuel + 1) (.Initialized 0 (.Try 0) len start d) ctx os =
        some (.Initialized (2 * len) (.Try c2) len start d, ctx, rs) ∧ c2 ≤ len) := by
  refine ⟨?_, ?_, ?_⟩
  · intro c len d a env h
    exact ⟨by simp [State.transition, h], rfl⟩
  · intro c len d a env h
    simp [State.transition, h]
  · intro α os len start d ctx fuel hlen hstart
    obtain ⟨c2, rs, hrun, hc2⟩ := try_round_inv os 0 0 len start d ctx fuel (by omega)
    refine ⟨c2, rs, ?_, ?_⟩
    · rw [hrun]
      norm_num [hlen]
    · have hform := liveCnt_closed_form start len os.length 0
      omega

/-- Witness for C3 at `len = 1`, `start = 0`, a round of two offers. -/
theorem claim_c3_witness :
    (State.transition (.Try 0) 1 none ⟨3⟩ sampleEnv = (.Subscribe 0, Actor.reset ⟨3⟩) ∧
      (Actor.reset ⟨3⟩).sel = 0) ∧
    State.transition (.Try 1) 1 none ⟨3⟩ sampleEnv = (.Disconnected, ⟨3⟩) ∧
    (∃ c2 rs, runOffers 1 (.Initialized 0 (.Try 0) 1 0 none) sampleCtx
        [sampleOffer 4, sampleOffer 4] =
      some (.Initialized 2 (.Try c2) 1 0 none, sampleCtx, rs) ∧ c2 ≤ 1) :=
  ⟨claim_c3.1 0 1 none ⟨3⟩ sampleEnv (by decide),
   claim_c3.2.1 1 1 none ⟨3⟩ sampleEnv (by decide),
   claim_c3.2.2 Nat [sampleOffer 4, sampleOffer 4] 1 0 none sampleCtx 0
     (by decide) (by decide)⟩

theorem send_finaltry_ne {α : Type} {w : Nat} {a : Actor} {tx : SendEnv} {txid : Nat}
    {v : α} (h : txid ≠ w) :
    State.send (.FinalTry w) a tx txid v = ⟨.FinalTry w, a, .err v, []⟩ := by
  simp [State.send, h]

theorem recv_finaltry_ne {α : Type} {w : Nat} {a : Actor} {rx : RecvEnv α} {rxid : Nat}
    (h : rxid ≠ w) :
    State.recv (.FinalTry w) a rx rxid = ⟨.FinalTry w, a, .err, []⟩ := by
  simp [State.recv, h]

/-- Claim C7: in state `FinalTry{winner_id}`, a live offer on an endpoint whose
id differs from `winner_id` performs no send/receive attempt and no
handoff-slot access (empty trace), returns failure, and leaves the protocol
state and the parking handle unchanged; only the candidate whose id equals
`winner_id` attempts the real transfer (one `try_send`/`try_recv`, or one
handoff-slot access for the rendezvous flavor). -/
theorem claim_c7 :
    (∀ (α : Type) (w : Nat) (a : Actor) (tx : SendEnv) (txid : Nat) (v : α), txid ≠ w →
      State.send (.FinalTry w) a tx txid v = ⟨.FinalTry w, a, .err v, []⟩) ∧
    (∀ (α : Type) (w : Nat) (a : Actor) (rx : RecvEnv α) (rxid : Nat), rxid ≠ w →
      State.recv (.FinalTry w) a rx rxid = ⟨.FinalTry w, a, .err, []⟩) ∧
    (∀ (α : Type) (fuel pos len start w : Nat) (d : Option Nat) (ctx : Ctx)
      (env : TransEnv) (tx : SendEnv) (txid : Nat) (v : α),
      pos < 2 * len → start ≤ pos → pos < start + len → txid ≠ w →
      Select.send (fuel + 1) (.Initialized pos (.FinalTry w) len start d) ctx env
          tx txid v =
        some ⟨.Initialized (pos + 1) (.FinalTry w) len start d, ctx, .err v, []⟩) ∧
    (∀ (α : Type) (fuel pos len start w : Nat) (d : Option Nat) (ctx : Ctx)
      (env : TransEnv) (rx : RecvEnv α) (rxid : Nat),
      pos < 2 * len → start ≤ pos → pos < start + len → rxid ≠ w →
      Select.recv (fuel + 1) (.Initialized pos (.FinalTry w) len start d) ctx env
          rx rxid =
        some ⟨.Initialized (pos + 1) (.FinalTry w) len start d, ctx, .err, []⟩) ∧
    (∀ (α : Type) (w : Nat) (a : Actor) (tx : SendEnv) (v : α),
      (State.send (.FinalTry w) a tx w v).ops =
        match tx.flavor with
        | .Zero => [.put_request]
        | _ => [.try_send]) := by
  refine ⟨fun _ _ _ _ _ _ h => send_finaltry_ne h,
    fun _ _ _ _ _ h => recv_finaltry_ne h, ?_, ?_, ?_⟩
  · intro α fuel pos len start w d ctx env tx txid v hp h1 h2 hne
    rw [select_send_live hp h1 h2, send_finaltry_ne hne]
  · intro α fuel pos len start w d ctx env rx rxid hp h1 h2 hne
    rw [select_recv_live hp h1 h2, recv_finaltry_ne hne]
  · intro α w a tx v
    simp only [State.send, if_pos rfl]
    rcases tx with ⟨fl, resp, tk, isd, cs, fs⟩
    cases fl <;> cases fs <;> rfl

/-- Witness for C7: winner_id 3, an offer on endpoint id 9 does nothing, the
offer on endpoint id 3 touches the rendezvous handoff slot. -/
theorem claim_c7_witness :
    State.send (.FinalTry 3) ⟨0⟩ sampleSendEnv 9 (5 : Nat) =
      ⟨.FinalTry 3, ⟨0⟩, .err 5, []⟩ ∧
    State.recv (.FinalTry 3) ⟨0⟩ sampleRecvEnv 9 = ⟨.FinalTry 3, ⟨0⟩, .err, []⟩ ∧
    Select.send 1 (.Initialized 1 (.FinalTry 3) 2 1 none) sampleCtx sampleEnv
        sampleSendEnv 9 (5 : Nat) =
      some ⟨.Initialized 2 (.FinalTry 3) 2 1 none, sampleCtx, .err 5, []⟩ ∧
    Select.recv 1 (.Initialized 1 (.FinalTry 3) 2 1 none) sampleCtx sampleEnv
        sampleRecvEnv 9 =
      some ⟨.Initialized 2 (.FinalTry 3) 2 1 none, sampleCtx, .err, []⟩ ∧
    (State.recv (.FinalTry 3) ⟨0⟩ sampleRecvEnv 3).ops = [.take_request] :=
  ⟨claim_c7.1 Nat 3 ⟨0⟩ sampleSendEnv 9 5 (by decide),
   claim_c7.2.1 Nat 3 ⟨0⟩ sampleRecvEnv 9 (by decide),
   claim_c7.2.2.1 Nat 0 1 2 1 3 none sampleCtx sampleEnv sampleSendEnv 9 5
     (by decide) (by decide) (by decide) (by decide),
   claim_c7.2.2.2.1 Nat 0 1 2 1 3 none sampleCtx sampleEnv sampleRecvEnv 9
     (by decide) (by decide) (by decide) (by decide),
   by decide⟩

theorem send_res_cases {α : Type} (s : State) (a : Actor) (tx : SendEnv) (txid : Nat)
    (v : α) :
    (State.send s a tx txid v).res = .ok ∨ (State.send s a tx txid v).res = .err v := by
  cases s with
  | Try c =>
    simp only [State.send]
    rcases htr : trySpinSend tx.responses 0 tx.ticks with n | n | n <;> simp
  | Subscribe cc => simp [State.send]
  | Unsubscribe => simp [State.send]
  | FinalTry w =>
    simp only [State.send]
    by_cases h : txid = w
    · rw [if_pos h]
      rcases tx with ⟨fl, resp, tk, isd, cs, fs⟩
      cases fl <;> cases fs <;> simp
    · rw [if_neg h]
      simp
  | TimedOut => simp [State.send]
  | Disconnected => simp [State.send]

/-- Claim C8: every `Select::send` call that returns a result either returns
`Ok` or returns `Err` carrying back exactly the value that was passed in, in
every protocol state, in the Counting phase and on dormant positions alike. -/
theorem claim_c8 {α : Type} (fuel : Nat) (m : Machine) (ctx : Ctx) (env : TransEnv)
    (tx : SendEnv) (txid : Nat) (v : α) (r : CallOut (SendResult α))
    (h : Select.send fuel m ctx env tx txid v = some r) :
    r.res = .ok ∨ r.res = .err v := by
  unfold Select.send at h
  rcases hstep : Machine.step fuel m ctx txid env with _ | ⟨m1, c1, live⟩
  · rw [hstep] at h
    exact absurd h (by simp)
  · rw [hstep] at h
    cases live with
    | false =>
      simp only [if_neg] at h
      cases h
      right
      rfl
    | true =>
      cases m1 with
      | Counting len idf d =>
        simp only [if_pos] at h
        cases h
        right
        rfl
      | Initialized pos s len start d =>
        simp only [if_pos] at h
        cases h
        exact send_res_cases s c1.actor tx txid v

/-- Witness for C8: a failed send on a full endpoint returns the offered value
5 back. -/
theorem claim_c8_witness :
    (CallOut.res ⟨.Initialized 1 (.Try 0) 1 0 none, sampleCtx, .err 5,
        [.try_send]⟩ : SendResult Nat) = .ok ∨
    (CallOut.res ⟨.Initialized 1 (.Try 0) 1 0 none, sampleCtx, .err 5,
        [.try_send]⟩ : SendResult Nat) = .err 5 :=
  claim_c8 1 (.Initialized 0 (.Try 0) 1 0 none) sampleCtx sampleEnv sampleSendEnv 9 5
    ⟨.Initialized 1 (.Try 0) 1 0 none, sampleCtx, .err 5, [.try_send]⟩ (by decide)

/-- Claim C4 counterexample: in state Subscribe, a live send offer on the
endpoint with id 7 that reports `can_send = true` marks the parking handle
with the constant id 1 (the source calls `actor::current().select(1)`), not
with the candidate's endpoint id 7; the subsequent Unsubscribe → FinalTry
transition therefore carries `winner_id = 1 ≠ 7`. -/
theorem claim_c4_counterexample :
    (State.send (.Subscribe 0) ⟨0⟩ ⟨.Zero, fun _ => .full, [], false, true, .full⟩ 7
        (5 : Nat)).actor = ⟨1⟩ ∧
    (State.transition .Unsubscribe 1 none ⟨1⟩ sampleEnv).1 = .FinalTry 1 ∧
    (1 : Nat) ≠ 7 := by
  refine ⟨?_, ?_, by decide⟩
  · decide
  · decide

/-- Claim C4 (amended): during a live offer in state Subscribe on an endpoint
that reports itself immediately ready (`can_send` for a send offer, `can_recv`
for a receive offer), an unmarked parking handle is marked as already-woken
with the constant id 1 — not with the candidate's endpoint id — and the
subsequent Unsubscribe → FinalTry round boundary therefore carries
`winner_id = 1`, whatever the candidate's id. -/
theorem claim_c4 {α : Type} (cc cc2 : Int) (a : Actor) (tx : SendEnv)
    (rx : RecvEnv α) (txid rxid : Nat) (v : α) (len : Nat) (d : Option Nat)
    (env1 env2 : TransEnv) (hcs : tx.can_send = true) (hcr : rx.can_recv = true)
    (ha : a.sel = 0) :
    (State.send (.Subscribe cc) a tx txid v).actor = ⟨1⟩ ∧
    (State.recv (.Subscribe cc) a rx rxid).actor = ⟨1⟩ ∧
    (State.transition .Unsubscribe len d
        (State.transition (.Subscribe cc2) len d
          (State.send (.Subscribe cc) a tx txid v).actor env1).2 env2).1 =
      .FinalTry 1 := by
  have h1 : (State.send (.Subscribe cc) a tx txid v).actor = ⟨1⟩ := by
    simp [State.send, hcs, Actor.select, ha]
  have h2 : (State.recv (.Subscribe cc) a rx rxid).actor = ⟨1⟩ := by
    simp [State.recv, hcr, Actor.select, ha]
  refine ⟨h1, h2, ?_⟩
  rw [h1]
  simp [State.transition, Actor.select, Actor.wait_until, Actor.selected]

/-- Witness for the amended C4 at endpoint ids 7 and 8. -/
theorem claim_c4_witness :
    (State.send (.Subscribe 0) ⟨0⟩ ⟨.Zero, fun _ => .full, [], false, true, .full⟩ 7
        (5 : Nat)).actor = ⟨1⟩ ∧
    (State.recv (.Subscribe 0) ⟨0⟩
        ⟨.Zero, fun _ => .empty, [], false, true, .empty, 7⟩ 8).actor = ⟨1⟩ ∧
    (State.transition .Unsubscribe 2 none
        (State.transition (.Subscribe 0) 2 none
          (State.send (.Subscribe 0) ⟨0⟩
            ⟨.Zero, fun _ => .full, [], false, true, .full⟩ 7 (5 : Nat)).actor
          sampleEnv).2 sampleEnv).1 =
      .FinalTry 1 :=
  claim_c4 0 0 ⟨0⟩ ⟨.Zero, fun _ => .full, [], false, true, .full⟩
    ⟨.Zero, fun _ => .empty, [], false, true, .empty, 7⟩ 7 8 5 2 none
    sampleEnv sampleEnv (by decide) (by decide) (by decide)

theorem gen_random_val (rng : Nat) : ∀ (ceil : Nat), 1 ≤ ceil →
    (gen_random rng ceil).2 = xorshift rng % ceil
  | 1, _ => rfl
  | 2, _ => rfl
  | 3, _ => rfl
  | 4, _ => rfl
  | (_ + 5), _ => rfl

/-- Claim C9 counterexample: `random_start` is not drawn uniformly — it is a
deterministic function of the hidden thread-local RNG cell.  From the cell's
initial per-thread value 1, the Counting → Initialized transition with
`candidate_count = 2` always stores `random_start = 1` (never 0), so the draw
admits no randomness at all at that state, refuting uniformity over `[0, 2)`. -/
theorem claim_c9_counterexample :
    Machine.stepIter (.Counting 2 5 none) ⟨⟨0⟩, 1⟩ 5 ⟨0, 0⟩ =
      .cont (.Initialized 0 (.Try 0) 2 1 none) ⟨⟨0⟩, 270369⟩ := by
  decide

/-- Claim C9 (amended): at the Counting-to-Initialized transition the machine
stores `random_start = xorshift(rng) % candidate_count`, the next output of
the deterministic thread-local xorshift32 generator reduced modulo
`candidate_count`; in particular the stored value is strictly less than
`candidate_count` for every `candidate_count ≥ 1`, but it is a deterministic
function of the generator state, not a uniform random draw. -/
theorem claim_c9 (len id_first : Nat) (d : Option Nat) (ctx : Ctx) (env : TransEnv)
    (hlen : 1 ≤ len) :
    Machine.stepIter (.Counting len id_first d) ctx id_first env =
      .cont (.Initialized 0 (.Try 0) len (gen_random ctx.rng len).2 d)
        { ctx with rng := (gen_random ctx.rng len).1 } ∧
    (gen_random ctx.rng len).2 = xorshift ctx.rng % len ∧
    (gen_random ctx.rng len).2 < len := by
  refine ⟨by simp [Machine.stepIter], gen_random_val ctx.rng len hlen, ?_⟩
  rw [gen_random_val ctx.rng len hlen]
  exact Nat.mod_lt _ (by omega)

/-- Witness for the amended C9 at `candidate_count = 3` from the initial RNG
cell value 1: the stored start is `270369 % 3 = 0 < 3`. -/
theorem claim_c9_witness :
    Machine.stepIter (.Counting 3 4 none) sampleCtx 4 sampleEnv =
      .cont (.Initialized 0 (.Try 0) 3 0 none) ⟨⟨0⟩, 270369⟩ ∧
    (gen_random (1 : Nat) 3).2 = xorshift 1 % 3 ∧
    (gen_random (1 : Nat) 3).2 < 3 :=
  claim_c9 3 4 none sampleCtx sampleEnv (by decide)

theorem step_succ (fuel : Nat) (m : Machine) (ctx : Ctx) (id : Nat) (env : TransEnv) :
    Machine.step (fuel + 1) m ctx id env =
      match m.stepIter ctx id env with
      | .ret m1 c1 live => some (m1, c1, live)
      | .cont m1 c1 => Machine.step fuel m1 c1 id env := rfl

theorem transition_absorbing (s : State) (hs : s = .TimedOut ∨ s = .Disconnected)
    (len : Nat) (d : Option Nat) (a : Actor) (env : TransEnv) :
    State.transition s len d a env = (s, a) := by
  rcases hs with h | h <;> subst h <;> rfl

theorem send_absorbing {α : Type} (s : State) (hs : s = .TimedOut ∨ s = .Disconnected)
    (a : Actor) (tx : SendEnv) (txid : Nat) (v : α) :
    State.send s a tx txid v = ⟨s, a, .err v, []⟩ := by
  rcases hs with h | h <;> subst h <;> rfl

theorem recv_absorbing {α : Type} (s : State) (hs : s = .TimedOut ∨ s = .Disconnected)
    (a : Actor) (rx : RecvEnv α) (rxid : Nat) :
    State.recv s a rx rxid = ⟨s, a, .err, []⟩ := by
  rcases hs with h | h <;> subst h <;> rfl

theorem step_absorbing {s : State} (hs : s = .TimedOut ∨ s = .Disconnected)
    {fuel pos len start : Nat} {d : Option Nat} {ctx : Ctx} {id : Nat}
    {env : TransEnv} (hlen : 1 ≤ len) :
    ∃ b : Bool, Machine.step (fuel + 2) (.Initialized pos s len start d) ctx id env =
      some (.Initialized (if 2 * len ≤ pos then 1 else pos + 1) s len start d, ctx, b) := by
  by_cases hb : 2 * len ≤ pos
  · refine ⟨decide (start ≤ 0 ∧ 0 < start + len), ?_⟩
    have h1 : Machine.step (fuel + 2) (.Initialized pos s len start d) ctx id env =
        Machine.step (fuel + 1) (.Initialized 0 s len start d) ctx id env := by
      show Machine.step (fuel + 1 + 1) (.Initialized pos s len start d) ctx id env = _
      rw [step_succ]
      simp only [Machine.stepIter, if_pos hb, transition_absorbing s hs]
    rw [h1, step_succ_lt (by omega), if_pos hb]
  · refine ⟨decide (start ≤ pos ∧ pos < start + len), ?_⟩
    show Machine.step (fuel + 1 + 1) (.Initialized pos s len start d) ctx id env = _
    rw [step_succ_lt (not_le.mp hb), if_neg hb]

theorem select_send_absorbing {α : Type} {s : State}
    (hs : s = .TimedOut ∨ s = .Disconnected) {fuel pos len start : Nat}
    {d : Option Nat} {ctx : Ctx} {env : TransEnv} {tx : SendEnv} {txid : Nat}
    {v : α} (hlen : 1 ≤ len) :
    Select.send (fuel + 2) (.Initialized pos s len start d) ctx env tx txid v =
      some ⟨.Initialized (if 2 * len ≤ pos then 1 else pos + 1) s len start d,
        ctx, .err v, []⟩ := by
  obtain ⟨b, hb⟩ := @step_absorbing s hs fuel pos len start d ctx txid env hlen
  simp only [Select.send, hb]
  cases b
  · simp
  · simp [send_absorbing s hs]

theorem select_recv_absorbing {α : Type} {s : State}
    (hs : s = .TimedOut ∨ s = .Disconnected) {fuel pos len start : Nat}
    {d : Option Nat} {ctx : Ctx} {env : TransEnv} {rx : RecvEnv α} {rxid : Nat}
    (hlen : 1 ≤ len) :
    Select.recv (fuel + 2) (.Initialized pos s len start d) ctx env rx rxid =
      some ⟨.Initialized (if 2 * len ≤ pos then 1 else pos + 1) s len start d,
        ctx, .err, []⟩ := by
  obtain ⟨b, hb⟩ := @step_absorbing s hs fuel pos len start d ctx rxid env hlen
  simp only [Select.recv, hb]
  cases b
  · simp
  · simp [recv_absorbing s hs]

theorem runOffer1_absorbing {α : Type} {s : State}
    (hs : s = .TimedOut ∨ s = .Disconnected) {fuel pos len start : Nat}
    {d : Option Nat} {ctx : Ctx} (o : Offer α) (hlen : 1 ≤ len) :
    runOffer1 (fuel + 2) (.Initialized pos s len start d) ctx o =
      some (.Initialized (if 2 * len ≤ pos then 1 else pos + 1) s len start d,
        ctx, false, []) := by
  cases o with
  | send tx txid env v => simp [runOffer1, select_send_absorbing hs hlen]
  | recv rx rxid env => simp [runOffer1, select_recv_absorbing hs hlen]

theorem runOffers_absorbing {α : Type} {s : State}
    (hs : s = .TimedOut ∨ s = .Disconnected) {len start : Nat} (hlen : 1 ≤ len)
    (os : List (Offer α)) :
    ∀ (pos : Nat) (d : Option Nat) (ctx : Ctx) (fuel : Nat),
    ∃ pos2, runOffers (fuel + 2) (.Initialized pos s len start d) ctx os =
      some (.Initialized pos2 s len start d, ctx,
        os.map fun _ => (false, ([] : List Op))) := by
  induction os with
  | nil => intro pos d ctx fuel; exact ⟨pos, by simp [runOffers]⟩
  | cons o os ih =>
    intro pos d ctx fuel
    obtain ⟨pos2, h2⟩ := ih (if 2 * len ≤ pos then 1 else pos + 1) d ctx fuel
    exact ⟨pos2, by simp only [runOffers, runOffer1_absorbing hs o hlen, h2,
      List.map_cons]⟩

/-- Claim C5: `TimedOut` and `Disconnected` are absorbing — the round-boundary
transition leaves them unchanged, every subsequent send offer returns `Err`
carrying the offered value, every subsequent receive offer returns `Err`, no
offer touches an endpoint or changes the protocol state over any sequence of
further offers, and `timed_out()` / `disconnected()` respectively stay true. -/
theorem claim_c5 (s : State) (hs : s = .TimedOut ∨ s = .Disconnected) :
    (∀ (len : Nat) (d : Option Nat) (a : Actor) (env : TransEnv),
      State.transition s len d a env = (s, a)) ∧
    (∀ (α : Type) (fuel pos len start : Nat) (d : Option Nat) (ctx : Ctx)
      (env : TransEnv) (tx : SendEnv) (txid : Nat) (v : α), 1 ≤ len →
      Select.send (fuel + 2) (.Initialized pos s len start d) ctx env tx txid v =
        some ⟨.Initialized (if 2 * len ≤ pos then 1 else pos + 1) s len start d,
          ctx, .err v, []⟩) ∧
    (∀ (α : Type) (fuel pos len start : Nat) (d : Option Nat) (ctx : Ctx)
      (env : TransEnv) (rx : RecvEnv α) (rxid : Nat), 1 ≤ len →
      Select.recv (fuel + 2) (.Initialized pos s len start d) ctx env rx rxid =
        some ⟨.Initialized (if 2 * len ≤ pos then 1 else pos + 1) s len start d,
          ctx, .err, []⟩) ∧
    (∀ (α : Type) (os : List (Offer α)) (pos len start : Nat) (d : Option Nat)
      (ctx : Ctx) (fuel : Nat), 1 ≤ len →
      ∃ pos2, runOffers (fuel + 2) (.Initialized pos s len start d) ctx os =
        some (.Initialized pos2 s len start d, ctx,
          os.map fun _ => (false, ([] : List Op)))) ∧
    (s = .TimedOut → ∀ (pos len start : Nat) (d : Option Nat),
      Select.timed_out (.Initialized pos s len start d) = true) ∧
    (s = .Disconnected → ∀ (pos len start : Nat) (d : Option Nat),
      Select.disconnected (.Initialized pos s len start d) = true) := by
  refine ⟨fun len d a env => transition_absorbing s hs len d a env,
    fun _ _ _ _ _ _ _ _ _ _ _ hlen => select_send_absorbing hs hlen,
    fun _ _ _ _ _ _ _ _ _ _ hlen => select_recv_absorbing hs hlen,
    fun _ os _ _ _ d ctx fuel hlen => runOffers_absorbing hs hlen os _ d ctx fuel,
    ?_, ?_⟩
  · intro h _ _ _ _
    subst h
    rfl
  · intro h _ _ _ _
    subst h
    rfl

/-- Witness for C5 in both terminal states. -/
theorem claim_c5_witness :
    State.transition .TimedOut 1 none ⟨2⟩ sampleEnv = (.TimedOut, ⟨2⟩) ∧
    Select.send 2 (.Initialized 0 .TimedOut 1 0 none) sampleCtx sampleEnv
        sampleSendEnv 9 (5 : Nat) =
      some ⟨.Initialized 1 .TimedOut 1 0 none, sampleCtx, .err 5, []⟩ ∧
    Select.recv 2 (.Initialized 0 .TimedOut 1 0 none) sampleCtx sampleEnv
        sampleRecvEnv 9 =
      some ⟨.Initialized 1 .TimedOut 1 0 none, sampleCtx, .err, []⟩ ∧
    (∃ pos2, runOffers 2 (.Initialized 0 .Disconnected 1 0 none) sampleCtx
        [sampleOffer 9] =
      some (.Initialized pos2 .Disconnected 1 0 none, sampleCtx, [(false, [])])) ∧
    Select.timed_out (.Initialized 5 .TimedOut 1 0 none) = true ∧
    Select.disconnected (.Initialized 5 .Disconnected 1 0 none) = true :=
  ⟨(claim_c5 .TimedOut (Or.inl rfl)).1 1 none ⟨2⟩ sampleEnv,
   (claim_c5 .TimedOut (Or.inl rfl)).2.1 Nat 0 0 1 0 none sampleCtx sampleEnv
     sampleSendEnv 9 5 (by decide),
   (claim_c5 .TimedOut (Or.inl rfl)).2.2.1 Nat 0 0 1 0 none sampleCtx sampleEnv
     sampleRecvEnv 9 (by decide),
   (claim_c5 .Disconnected (Or.inr rfl)).2.2.2.1 Nat [sampleOffer 9] 0 1 0 none
     sampleCtx 0 (by decide),
   (claim_c5 .TimedOut (Or.inl rfl)).2.2.2.2.1 rfl 5 1 0 none,
   (claim_c5 .Disconnected (Or.inr rfl)).2.2.2.2.2 rfl 5 1 0 none⟩

theorem timed_out_initialized (pos : Nat) (s : State) (len start : Nat)
    (d : Option Nat) :
    Select.timed_out (.Initialized pos s len start d) = decide (s = .TimedOut) := by
  cases s <;> rfl

theorem transition_to_timeout (s : State) (len : Nat) (d : Option Nat) (a : Actor)
    (env : TransEnv) :
    (State.transition s len d a env).1 = .TimedOut →
      s = .TimedOut ∨ ∃ w dEnd, s = .FinalTry w ∧ d = some dEnd ∧ dEnd ≤ env.now := by
  cases s with
  | Try c =>
    simp only [State.transition]
    split_ifs <;> simp
  | Subscribe cc => simp [State.transition]
  | Unsubscribe => simp [State.transition]
  | FinalTry w =>
    rcases d with _ | dEnd
    · simp [State.transition]
    · by_cases h : dEnd ≤ env.now
      · intro _
        exact Or.inr ⟨w, dEnd, rfl, rfl, h⟩
      · simp [State.transition, h]
  | TimedOut => intro _; exact Or.inl rfl
  | Disconnected => simp [State.transition]

theorem send_state_not_timeout {α : Type} (s : State) (hs : s ≠ .TimedOut)
    (a : Actor) (tx : SendEnv) (txid : Nat) (v : α) :
    (State.send s a tx txid v).state ≠ .TimedOut := by
  cases s with
  | Try c =>
    obtain ⟨c2, h, _, _⟩ := send_try_state c a tx txid v
    rw [h]
    simp
  | Subscribe cc => simp [State.send]
  | Unsubscribe => simp [State.send]
  | FinalTry w =>
    have hfix : (State.send (.FinalTry w) a tx txid v).state = .FinalTry w := by
      simp only [State.send]
      by_cases h : txid = w
      · rw [if_pos h]
        rcases tx with ⟨fl, resp, tk, isd, cs, fs⟩
        cases fl <;> cases fs <;> rfl
      · rw [if_neg h]
    rw [hfix]
    simp
  | TimedOut => exact absurd rfl hs
  | Disconnected => simp [State.send]

theorem recv_state_not_timeout {α : Type} (s : State) (hs : s ≠ .TimedOut)
    (a : Actor) (rx : RecvEnv α) (rxid : Nat) :
    (State.recv s a rx rxid).state ≠ .TimedOut := by
  cases s with
  | Try c =>
    obtain ⟨c2, h, _, _⟩ := recv_try_state c a rx rxid
    rw [h]
    simp
  | Subscribe cc => simp [State.recv]
  | Unsubscribe => simp [State.recv]
  | FinalTry w =>
    have hfix : (State.recv (.FinalTry w) a rx rxid).state = .FinalTry w := by
      simp only [State.recv]
      by_cases h : rxid = w
      · rw [if_pos h]
        rcases rx with ⟨fl, resp, tk, isd, cr, fr, rv⟩
        cases fl <;> cases fr <;> rfl
      · rw [if_neg h]
    rw [hfix]
    simp
  | TimedOut => exact absurd rfl hs
  | Disconnected => simp [State.recv]

theorem step_no_timeout : ∀ (fuel : Nat) (m : Machine) (ctx : Ctx) (id : Nat)
    (env : TransEnv) (r : Machine × Ctx × Bool),
    Machine.step fuel m ctx id env = some r → Machine.deadline m = none →
    Select.timed_out m = false →
    Machine.deadline r.1 = none ∧ Select.timed_out r.1 = false := by
  intro fuel
  induction fuel with
  | zero =>
    intro m ctx id env r h
    exact absurd h (by simp [Machine.step])
  | succ fuel ih =>
    intro m ctx id env r h hd hto
    rw [step_succ] at h
    cases m with
    | Counting len idf d =>
      have hd2 : d = none := hd
      subst hd2
      by_cases hid : idf = id
      · simp only [Machine.stepIter, if_pos hid] at h
        exact ih _ _ _ _ _ h rfl rfl
      · simp only [Machine.stepIter, if_neg hid] at h
        cases h
        exact ⟨rfl, rfl⟩
    | Initialized pos s len start d =>
      have hd2 : d = none := hd
      subst hd2
      have hs : s ≠ .TimedOut := by
        rw [timed_out_initialized] at hto
        simpa using hto
      by_cases hb : 2 * len ≤ pos
      · simp only [Machine.stepIter, if_pos hb] at h
        apply ih _ _ _ _ _ h rfl
        rw [timed_out_initialized]
        simp only [decide_eq_false_iff_not]
        intro hT
        rcases transition_to_timeout s len none ctx.actor env hT with h1 | ⟨w, dE, _, hsome, _⟩
        · exact hs h1
        · cases hsome
      · simp only [Machine.stepIter, if_neg hb] at h
        cases h
        refine ⟨rfl, ?_⟩
        rw [timed_out_initialized]
        simpa using hs

theorem select_send_no_timeout {α : Type} (fuel : Nat) (m : Machine) (ctx : Ctx)
    (env : TransEnv) (tx : SendEnv) (txid : Nat) (v : α) (r : CallOut (SendResult α))
    (h : Select.send fuel m ctx env tx txid v = some r)
    (hd : Machine.deadline m = none) (hto : Select.timed_out m = false) :
    Machine.deadline r.m = none ∧ Select.timed_out r.m = false := by
  unfold Select.send at h
  rcases hstep : Machine.step fuel m ctx txid env with _ | ⟨m2, c2, live⟩
  · rw [hstep] at h
    exact absurd h (by simp)
  · rw [hstep] at h
    obtain ⟨hd2, hto2⟩ := step_no_timeout fuel m ctx txid env (m2, c2, live) hstep hd hto
    cases live with
    | false =>
      simp only [Bool.false_eq_true, if_false] at h
      cases h
      exact ⟨hd2, hto2⟩
    | true =>
      simp only [if_true] at h
      cases m2 with
      | Counting len idf d =>
        cases h
        exact ⟨hd2, hto2⟩
      | Initialized pos s len start d =>
        cases h
        refine ⟨hd2, ?_⟩
        have hs : s ≠ .TimedOut := by
          rw [timed_out_initialized] at hto2
          simpa using hto2
        rw [timed_out_initialized]
        simp only [decide_eq_false_iff_not]
        exact send_state_not_timeout s hs c2.actor tx txid v

theorem select_recv_no_timeout {α : Type} (fuel : Nat) (m : Machine) (ctx : Ctx)
    (env : TransEnv) (rx : RecvEnv α) (rxid : Nat) (r : CallOut (RecvResult α))
    (h : Select.recv fuel m ctx env rx rxid = some r)
    (hd : Machine.deadline m = none) (hto : Select.timed_out m = false) :
    Machine.deadline r.m = none ∧ Select.timed_out r.m = false := by
  unfold Select.recv at h
  rcases hstep : Machine.step fuel m ctx rxid env with _ | ⟨m2, c2, live⟩
  · rw [hstep] at h
    exact absurd h (by simp)
  · rw [hstep] at h
    obtain ⟨hd2, hto2⟩ := step_no_timeout fuel m ctx rxid env (m2, c2, live) hstep hd hto
    cases live with
    | false =>
      simp only [Bool.false_eq_true, if_false] at h
      cases h
      exact ⟨hd2, hto2⟩
    | true =>
      simp only [if_true] at h
      cases m2 with
      | Counting len idf d =>
        cases h
        exact ⟨hd2, hto2⟩
      | Initialized pos s len start d =>
        cases h
        refine ⟨hd2, ?_⟩
        have hs : s ≠ .TimedOut := by
          rw [timed_out_initialized] at hto2
          simpa using hto2
        rw [timed_out_initialized]
        simp only [decide_eq_false_iff_not]
        exact recv_state_not_timeout s hs c2.actor rx rxid

theorem runOffer1_no_timeout {α : Type} (fuel : Nat) (m : Machine) (ctx : Ctx)
    (o : Offer α) (m1 : Machine) (c1 : Ctx) (suc : Bool) (tr : List Op)
    (h : runOffer1 fuel m ctx o = some (m1, c1, suc, tr))
    (hd : Machine.deadline m = none) (hto : Select.timed_out m = false) :
    Machine.deadline m1 = none ∧ Select.timed_out m1 = false := by
  cases o with
  | send tx txid env v =>
    simp only [runOffer1] at h
    rcases hsel : Select.send fuel m ctx env tx txid v with _ | r
    · rw [hsel] at h
      exact absurd h (by simp)
    · rw [hsel] at h
      obtain ⟨h1, h2⟩ := select_send_no_timeout fuel m ctx env tx txid v r hsel hd hto
      cases h
      exact ⟨h1, h2⟩
  | recv rx rxid env =>
    simp only [runOffer1] at h
    rcases hsel : Select.recv fuel m ctx env rx rxid with _ | r
    · rw [hsel] at h
      exact absurd h (by simp)
    · rw [hsel] at h
      obtain ⟨h1, h2⟩ := select_recv_no_timeout fuel m ctx env rx rxid r hsel hd hto
      cases h
      exact ⟨h1, h2⟩

theorem runOffers_no_timeout {α : Type} (os : List (Offer α)) :
    ∀ (fuel : Nat) (m : Machine) (ctx : Ctx) (m1 : Machine) (c1 : Ctx)
    (rs : List (Bool × List Op)),
    runOffers fuel m ctx os = some (m1, c1, rs) → Machine.deadline m = none →
    Select.timed_out m = false →
    Machine.deadline m1 = none ∧ Select.timed_out m1 = false := by
  induction os with
  | nil =>
    intro fuel m ctx m1 c1 rs h hd hto
    simp only [runOffers, Option.some.injEq, Prod.mk.injEq] at h
    obtain ⟨h1, _, _⟩ := h
    subst h1
    exact ⟨hd, hto⟩
  | cons o os ih =>
    intro fuel m ctx m1 c1 rs h hd hto
    simp only [runOffers] at h
    rcases h1 : runOffer1 fuel m ctx o with _ | ⟨m2, c2, suc, tr⟩
    · rw [h1] at h
      exact absurd h (by simp)
    · rw [h1] at h
      dsimp only at h
      rcases h2 : runOffers fuel m2 c2 os with _ | ⟨m3, c3, rs2⟩
      · rw [h2] at h
        exact absurd h (by simp)
      · rw [h2] at h
        simp only [Option.some.injEq, Prod.mk.injEq] at h
        obtain ⟨hm, _, _⟩ := h
        subst hm
        obtain ⟨hd2, hto2⟩ := runOffer1_no_timeout fuel m ctx o m2 c2 suc tr h1 hd hto
        exact ih fuel m2 c2 m3 c3 rs2 h2 hd2 hto2

/-- Claim C6: the transition out of `FinalTry` goes to `Try{closed_count := 0}`
exactly when no deadline is set or the deadline has not yet passed, and to
`TimedOut` exactly when the deadline has passed; the `FinalTry` round boundary
is the only edge that can enter `TimedOut` (no other transition and no
send/recv offer produces it), so a machine created by `new()` (no deadline)
never reaches `TimedOut` over any sequence of offers. -/
theorem claim_c6 :
    (∀ (w len : Nat) (a : Actor) (env : TransEnv),
      State.transition (.FinalTry w) len none a env = (.Try 0, a)) ∧
    (∀ (w len dEnd : Nat) (a : Actor) (env : TransEnv), env.now < dEnd →
      State.transition (.FinalTry w) len (some dEnd) a env = (.Try 0, a)) ∧
    (∀ (w len dEnd : Nat) (a : Actor) (env : TransEnv), dEnd ≤ env.now →
      State.transition (.FinalTry w) len (some dEnd) a env = (.TimedOut, a)) ∧
    (∀ (s : State) (len : Nat) (d : Option Nat) (a : Actor) (env : TransEnv),
      (State.transition s len d a env).1 = .TimedOut →
        s = .TimedOut ∨ ∃ w dEnd, s = .FinalTry w ∧ d = some dEnd ∧ dEnd ≤ env.now) ∧
    (∀ (α : Type) (s : State) (a : Actor) (tx : SendEnv) (txid : Nat) (v : α),
      (State.send s a tx txid v).state = .TimedOut → s = .TimedOut) ∧
    (∀ (α : Type) (s : State) (a : Actor) (rx : RecvEnv α) (rxid : Nat),
      (State.recv s a rx rxid).state = .TimedOut → s = .TimedOut) ∧
    (∀ (α : Type) (os : List (Offer α)) (fuel : Nat) (ctx : Ctx) (m1 : Machine)
      (c1 : Ctx) (rs : List (Bool × List Op)),
      runOffers fuel Select.new ctx os = some (m1, c1, rs) →
      Select.timed_out m1 = false) := by
  refine ⟨fun w len a env => rfl, ?_, ?_, transition_to_timeout, ?_, ?_, ?_⟩
  · intro w len dEnd a env h
    simp [State.transition, not_le.mpr h]
  · intro w len dEnd a env h
    simp [State.transition, h]
  · intro α s a tx txid v h
    by_contra hs
    exact send_state_not_timeout s hs a tx txid v h
  · intro α s a rx rxid h
    by_contra hs
    exact recv_state_not_timeout s hs a rx rxid h
  · intro α os fuel ctx m1 c1 rs h
    exact (runOffers_no_timeout os fuel Select.new ctx m1 c1 rs h rfl rfl).2

/-- Witness for C6 with deadline 9: not passed at time 4, passed at time 9;
one counting offer from a `new()` machine leaves `timed_out()` false. -/
theorem claim_c6_witness :
    State.transition (.FinalTry 3) 2 none ⟨1⟩ sampleEnv = (.Try 0, ⟨1⟩) ∧
    State.transition (.FinalTry 3) 2 (some 9) ⟨1⟩ ⟨4, 0⟩ = (.Try 0, ⟨1⟩) ∧
    State.transition (.FinalTry 3) 2 (some 9) ⟨1⟩ ⟨9, 0⟩ = (.TimedOut, ⟨1⟩) ∧
    (State.FinalTry 3 = .TimedOut ∨ ∃ w dEnd, State.FinalTry 3 = .FinalTry w ∧
      (some 9 : Option Nat) = some dEnd ∧ dEnd ≤ (9 : Nat)) ∧
    (State.TimedOut = State.TimedOut) ∧
    (State.TimedOut = State.TimedOut) ∧
    Select.timed_out (.Counting 1 4 none) = false :=
  ⟨claim_c6.1 3 2 ⟨1⟩ sampleEnv,
   claim_c6.2.1 3 2 9 ⟨1⟩ ⟨4, 0⟩ (by decide),
   claim_c6.2.2.1 3 2 9 ⟨1⟩ ⟨9, 0⟩ (by decide),
   claim_c6.2.2.2.1 (.FinalTry 3) 2 (some 9) ⟨1⟩ ⟨9, 0⟩ (by decide),
   claim_c6.2.2.2.2.1 Nat .TimedOut ⟨0⟩ sampleSendEnv 9 5 (by decide),
   claim_c6.2.2.2.2.2.1 Nat .TimedOut ⟨0⟩ sampleRecvEnv 9 (by decide),
   claim_c6.2.2.2.2.2.2 Nat [sampleOffer 4] 1 sampleCtx (.Counting 1 4 none)
     sampleCtx [(false, [])] (by decide)⟩

theorem step_one_lt {pos len start : Nat} {s : State} {d : Option Nat} {ctx : Ctx}
    {id : Nat} {env : TransEnv} (h : pos < 2 * len) :
    Machine.step 1 (.Initialized pos s len start d) ctx id env =
      some (.Initialized (pos + 1) s len start d, ctx,
        decide (start ≤ pos ∧ pos < start + len)) :=
  step_succ_lt h

theorem step_two_lt {pos len start : Nat} {s : State} {d : Option Nat} {ctx : Ctx}
    {id : Nat} {env : TransEnv} (h : pos < 2 * len) :
    Machine.step 2 (.Initialized pos s len start d) ctx id env =
      some (.Initialized (pos + 1) s len start d, ctx,
        decide (start ≤ pos ∧ pos < start + len)) :=
  step_succ_lt h

theorem step_initialized_len0 : ∀ (fuel pos : Nat) (s : State) (start : Nat)
    (d : Option Nat) (ctx : Ctx) (id : Nat) (env : TransEnv),
    Machine.step fuel (.Initialized pos s 0 start d) ctx id env = none := by
  intro fuel
  induction fuel with
  | zero => intros; rfl
  | succ fuel ih =>
    intro pos s start d ctx id env
    rw [step_succ]
    simp only [Machine.stepIter]
    rw [if_pos (by omega : 2 * 0 ≤ pos)]
    exact ih 0 _ start d _ id env

theorem step_counting_zero_div (fuel : Nat) (d : Option Nat) (ctx : Ctx)
    (env : TransEnv) :
    Machine.step fuel (.Counting 0 0 d) ctx 0 env = none := by
  cases fuel with
  | zero => rfl
  | succ fuel =>
    rw [step_succ]
    simp only [Machine.stepIter, if_pos rfl]
    exact step_initialized_len0 fuel 0 _ _ d _ 0 env

theorem step_good_total (m : Machine) (ctx : Ctx) (id : Nat) (env : TransEnv)
    (hg : goodM m = true) (hid : id ≠ 0) :
    (Machine.step 2 m ctx id env).isSome = true := by
  cases m with
  | Counting len idf d =>
    by_cases hidf : idf = id
    · have hidf0 : idf ≠ 0 := by rw [hidf]; exact hid
      have hlen : 1 ≤ len := by
        simp only [goodM, Bool.or_eq_true, beq_iff_eq, decide_eq_true_eq] at hg
        rcases hg with h1 | h1
        · exact absurd h1 hidf0
        · exact h1
      have h1 : Machine.step 2 (.Counting len idf d) ctx id env =
          Machine.step 1 (.Initialized 0 (.Try 0) len (gen_random ctx.rng len).2 d)
            { ctx with rng := (gen_random ctx.rng len).1 } id env := by
        show Machine.step (1 + 1) _ _ _ _ = _
        rw [step_succ]
        simp only [Machine.stepIter, if_pos hidf]
      rw [h1, step_one_lt (by omega)]
      rfl
    · have h1 : Machine.step 2 (.Counting len idf d) ctx id env =
          some (.Counting (len + 1) (if idf = 0 then id else idf) d, ctx, false) := by
        show Machine.step (1 + 1) _ _ _ _ = _
        rw [step_succ]
        simp only [Machine.stepIter, if_neg hidf]
      rw [h1]
      rfl
  | Initialized pos s len start d =>
    have hlen : 1 ≤ len := by simpa [goodM] using hg
    by_cases hb : 2 * len ≤ pos
    · have h1 : Machine.step 2 (.Initialized pos s len start d) ctx id env =
          Machine.step 1 (.Initialized 0 (State.transition s len d ctx.actor env).1
              len start d)
            { ctx with actor := (State.transition s len d ctx.actor env).2 } id env := by
        show Machine.step (1 + 1) _ _ _ _ = _
        rw [step_succ]
        simp only [Machine.stepIter, if_pos hb]
      rw [h1, step_one_lt (by omega)]
      rfl
    · rw [step_two_lt (not_le.mp hb)]
      rfl

theorem step_good_pres : ∀ (fuel : Nat) (m : Machine) (ctx : Ctx) (id : Nat)
    (env : TransEnv) (r : Machine × Ctx × Bool),
    Machine.step fuel m ctx id env = some r → goodM m = true → id ≠ 0 →
    goodM r.1 = true := by
  intro fuel
  induction fuel with
  | zero =>
    intro m ctx id env r h
    exact absurd h (by simp [Machine.step])
  | succ fuel ih =>
    intro m ctx id env r h hg hid
    rw [step_succ] at h
    cases m with
    | Counting len idf d =>
      by_cases hidf : idf = id
      · simp only [Machine.stepIter, if_pos hidf] at h
        apply ih _ _ _ _ _ h _ hid
        have hidf0 : idf ≠ 0 := by rw [hidf]; exact hid
        simp only [goodM, Bool.or_eq_true, beq_iff_eq, decide_eq_true_eq] at hg ⊢
        rcases hg with h1 | h1
        · exact absurd h1 hidf0
        · exact h1
      · simp only [Machine.stepIter, if_neg hidf] at h
        cases h
        simp only [goodM, Bool.or_eq_true, decide_eq_true_eq]
        exact Or.inr (by omega)
    | Initialized pos s len start d =>
      have hlen : 1 ≤ len := by simpa [goodM] using hg
      by_cases hb : 2 * len ≤ pos
      · simp only [Machine.stepIter, if_pos hb] at h
        apply ih _ _ _ _ _ h _ hid
        simpa [goodM] using hlen
      · simp only [Machine.stepIter, if_neg hb] at h
        cases h
        simpa [goodM] using hlen

/-- Claim C10: if every endpoint id ever offered is non-zero, every call to
`Machine::step` terminates — a fresh machine satisfies the invariant `goodM`,
`goodM` is preserved by stepping with a non-zero id, and on a `goodM` machine
the loop returns within 2 iterations; but if the very first offer to a fresh
machine carries endpoint id 0, the loop body transitions the machine to
Initialized with `candidate_count = 0`, and stepping a fresh machine with id 0,
or any machine Initialized with `candidate_count = 0`, never returns, for any
amount of fuel. -/
theorem claim_c10 :
    (∀ d : Option Nat, goodM (Select.with_deadline d) = true) ∧
    (∀ (m : Machine) (ctx : Ctx) (id : Nat) (env : TransEnv) (fuel : Nat)
      (r : Machine × Ctx × Bool), goodM m = true → id ≠ 0 →
      Machine.step fuel m ctx id env = some r → goodM r.1 = true) ∧
    (∀ (m : Machine) (ctx : Ctx) (id : Nat) (env : TransEnv), goodM m = true →
      id ≠ 0 → (Machine.step 2 m ctx id env).isSome = true) ∧
    (∀ (d : Option Nat) (ctx : Ctx) (env : TransEnv),
      Machine.stepIter (.Counting 0 0 d) ctx 0 env =
        .cont (.Initialized 0 (.Try 0) 0 0 d) { ctx with rng := xorshift ctx.rng }) ∧
    (∀ (fuel : Nat) (d : Option Nat) (ctx : Ctx) (env : TransEnv),
      Machine.step fuel (.Counting 0 0 d) ctx 0 env = none) ∧
    (∀ (fuel pos : Nat) (s : State) (start : Nat) (d : Option Nat) (ctx : Ctx)
      (id : Nat) (env : TransEnv),
      Machine.step fuel (.Initialized pos s 0 start d) ctx id env = none) :=
  ⟨fun _ => rfl,
   fun m ctx id env fuel r hg hid h => step_good_pres fuel m ctx id env r h hg hid,
   fun m ctx id env hg hid => step_good_total m ctx id env hg hid,
   fun _ _ _ => rfl,
   fun fuel d ctx env => step_counting_zero_div fuel d ctx env,
   fun fuel pos s start d ctx id env => step_initialized_len0 fuel pos s start d ctx id env⟩

/-- Witness for C10: stepping with non-zero ids from a fresh machine, and the
divergence of a fresh machine first offered endpoint id 0. -/
theorem claim_c10_witness :
    goodM (Select.with_deadline none) = true ∧
    goodM (Machine.Counting 2 7 none) = true ∧
    (Machine.step 2 (.Counting 1 4 none) sampleCtx 4 sampleEnv).isSome = true ∧
    Machine.stepIter (.Counting 0 0 none) sampleCtx 0 sampleEnv =
      .cont (.Initialized 0 (.Try 0) 0 0 none) ⟨⟨0⟩, 270369⟩ ∧
    Machine.step 5 (.Counting 0 0 none) sampleCtx 0 sampleEnv = none ∧
    Machine.step 5 (.Initialized 0 (.Try 0) 0 0 none) sampleCtx 3 sampleEnv = none :=
  ⟨claim_c10.1 none,
   claim_c10.2.1 (.Counting 1 7 none) sampleCtx 4 sampleEnv 1
     (.Counting 2 7 none, sampleCtx, false) (by decide) (by decide) (by decide),
   claim_c10.2.2.1 (.Counting 1 4 none) sampleCtx 4 sampleEnv (by decide) (by decide),
   claim_c10.2.2.2.1 none sampleCtx sampleEnv,
   claim_c10.2.2.2.2.1 5 none sampleCtx sampleEnv,
   claim_c10.2.2.2.2.2 5 0 (.Try 0) 0 none sampleCtx 3 sampleEnv⟩
